import Mathlib

/-!
Verification of the `FilteringSpanProcessor` in `src/Tracing.py`.

The processor wraps a span exporter and, on each completed span, evaluates a
chain of optional filter predicates (name substrings, operation allow/deny
lists, minimum duration, excluded span kinds) with early return; a span that
survives every configured predicate is forwarded to the wrapped exporter as a
single-element batch.  Python dictionary-truthiness governs which predicates
are configured: a missing key, an empty collection, or a zero duration floor
all skip the corresponding check.
-/

/-- Span kinds, mirroring `opentelemetry.trace.SpanKind`. -/
inductive SpanKind where
  | internal
  | server
  | client
  | producer
  | consumer
deriving DecidableEq, Repr

/-- A completed span as read by `FilteringSpanProcessor.on_end`: a name, a
kind, start/end timestamps in nanoseconds, and an attribute mapping. -/
structure Span where
  name : String
  kind : SpanKind
  start_time : Int
  end_time : Int
  attributes : List (String × String)
deriving DecidableEq, Repr

/-- `span.attributes.get(k)`: look up attribute `k`, `none` when absent. -/
def Span.attrGet (s : Span) (k : String) : Option String :=
  (s.attributes.find? (fun p => p.1 == k)).map (fun p => p.2)

/-- The `filter_criteria` dictionary: each key is optional (`none` = key
absent from the dictionary). -/
structure FilterCriteria where
  include_names : Option (List String) := none
  operation_names : Option (List String) := none
  min_duration_ms : Option Rat := none
  exclude_operations : Option (List String) := none
  exclude_span_kinds : Option (List SpanKind) := none
deriving DecidableEq, Repr

/-- Python truthiness of `filter_criteria.get(key)` for a list-valued
criterion: `None` and `[]` are falsy. -/
def truthyList {α : Type} : Option (List α) → Bool
  | none => false
  | some l => !l.isEmpty

/-- Python truthiness of `filter_criteria.get("min_duration_ms")`: `None`
and `0` are falsy. -/
def truthyNum : Option Rat → Bool
  | none => false
  | some q => decide (q ≠ 0)

/-- `__init__`: `self.filter_criteria = filter_criteria or {}`. -/
def initCriteria (filter_criteria : Option FilterCriteria) : FilterCriteria :=
  filter_criteria.getD {}

/-- The hard-coded attribute key both operation-based predicates read. -/
def opKey : String := "gen_ai.operation.name"

/-- `any(name in span.name for name in names)`: case-sensitive substring
containment of at least one configured name. -/
def nameMatches (names : List String) (spanName : String) : Bool :=
  names.any (fun n => decide (List.IsInfix n.toList spanName.toList))

/-- `operation in l` where `operation` is `span.attributes.get(...)`:
a missing attribute (`None`) is never a member of a list of strings. -/
def opInList (operation : Option String) (l : List String) : Bool :=
  match operation with
  | none => false
  | some v => l.contains v

/-- `duration_ms < floor` where
`duration_ms = (span.end_time - span.start_time) / 1_000_000`. -/
def durationLt (s : Span) (floor : Rat) : Bool :=
  decide (((s.end_time - s.start_time : Int) : Rat) / 1000000 < floor)

/-- The early-return filter chain of `on_end`, as the decision it computes:
`false` means one of the five checks returned early (span dropped), `true`
means the span reaches the final export statement. -/
def shouldExport (fc : FilterCriteria) (s : Span) : Bool :=
  if truthyList fc.include_names &&
      !(nameMatches (fc.include_names.getD []) s.name) then false
  else if truthyList fc.operation_names &&
      !(opInList (s.attrGet opKey) (fc.operation_names.getD [])) then false
  else if truthyNum fc.min_duration_ms &&
      durationLt s (fc.min_duration_ms.getD 0) then false
  else if truthyList fc.exclude_operations &&
      opInList (s.attrGet opKey) (fc.exclude_operations.getD []) then false
  else if truthyList fc.exclude_span_kinds &&
      (fc.exclude_span_kinds.getD []).contains s.kind then false
  else true

/-- `on_end(span)`, observed as the list of batches passed to the wrapped
exporter's `export` during the call: `[[s]]` when the span passes every
configured filter (one `export([span])` call), `[]` when it is dropped. -/
def FilteringSpanProcessor.on_end (fc : FilterCriteria) (s : Span) :
    List (List Span) :=
  if shouldExport fc s then [[s]] else []

/-- A wrapped exporter with abstract state `σ`: `export`, `shutdown` and
`force_flush` as state transformers (`force_flush` also returns a success
flag). -/
structure Exporter (σ : Type) where
  exportFn : σ → List Span → σ
  shutdownFn : σ → σ
  forceFlushFn : σ → Int → σ × Bool

/-- `shutdown()`: `self.exporter.shutdown()`. -/
def FilteringSpanProcessor.shutdown {σ : Type} (e : Exporter σ) (st : σ) : σ :=
  e.shutdownFn st

/-- `force_flush(timeout_millis)`:
`return self.exporter.force_flush(timeout_millis)`. -/
def FilteringSpanProcessor.force_flush {σ : Type} (e : Exporter σ) (st : σ)
    (timeout_millis : Int) : σ × Bool :=
  e.forceFlushFn st timeout_millis

/-- A concrete wrapped exporter over state `Nat`, with an idempotent
shutdown, used to instantiate the lifecycle theorems. -/
def constExporter : Exporter Nat where
  exportFn := fun st _ => st + 1
  shutdownFn := fun _ => 0
  forceFlushFn := fun st t => (st, decide (0 ≤ t))

/-- The spec's AND-composition of the five optional predicates, written from
the spec's words: every configured predicate must pass for the span to be
forwarded.  Compared against the code's early-return chain `shouldExport`. -/
def specAllPass (fc : FilterCriteria) (s : Span) : Bool :=
  (!truthyList fc.include_names ||
      nameMatches (fc.include_names.getD []) s.name) &&
  (!truthyList fc.operation_names ||
      opInList (s.attrGet opKey) (fc.operation_names.getD [])) &&
  (!truthyNum fc.min_duration_ms ||
      !durationLt s (fc.min_duration_ms.getD 0)) &&
  (!truthyList fc.exclude_operations ||
      !opInList (s.attrGet opKey) (fc.exclude_operations.getD [])) &&
  (!truthyList fc.exclude_span_kinds ||
      !(fc.exclude_span_kinds.getD []).contains s.kind)

/-- The early-return chain equals the AND of the configured predicates. -/
lemma shouldExport_eq_specAllPass (fc : FilterCriteria) (s : Span) :
    shouldExport fc s = specAllPass fc s := by
  unfold shouldExport specAllPass
  generalize truthyList fc.include_names = t1
  generalize nameMatches (fc.include_names.getD []) s.name = p1
  generalize truthyList fc.operation_names = t2
  generalize opInList (s.attrGet opKey) (fc.operation_names.getD []) = p2
  generalize truthyNum fc.min_duration_ms = t3
  generalize durationLt s (fc.min_duration_ms.getD 0) = p3
  generalize truthyList fc.exclude_operations = t4
  generalize opInList (s.attrGet opKey) (fc.exclude_operations.getD []) = p4
  generalize truthyList fc.exclude_span_kinds = t5
  generalize (fc.exclude_span_kinds.getD []).contains s.kind = p5
  revert t1 p1 t2 p2 t3 p3 t4 p4 t5 p5
  decide

/-- Claim C1: one call to `on_end` makes exactly one `export` call with the
single-element batch `[s]` when every configured predicate passes, and zero
`export` calls otherwise; no batch of any other size ever occurs, and the
predicates combine with AND semantics. -/
theorem C1_on_end_single_export_and_semantics (fc : FilterCriteria) (s : Span) :
    (FilteringSpanProcessor.on_end fc s = [[s]] ∨
      FilteringSpanProcessor.on_end fc s = []) ∧
    (FilteringSpanProcessor.on_end fc s = [[s]] ↔ specAllPass fc s = true) := by
  unfold FilteringSpanProcessor.on_end
  rw [shouldExport_eq_specAllPass]
  cases h : specAllPass fc s <;> simp [h]

/-- Claim C2: with no predicates set (empty configuration, or constructor
given `filter_criteria=None`), `on_end` forwards every span as `[s]`. -/
theorem C2_empty_config_forwards (s : Span) :
    FilteringSpanProcessor.on_end (initCriteria none) s = [[s]] ∧
    FilteringSpanProcessor.on_end {} s = [[s]] := by
  constructor <;> rfl

/-- Claim C3: when the operation attribute is absent, an allow-list
(`operation_names`) configuration drops the span, while a configuration with
only `exclude_operations` set forwards it; neither case is an error (both
total functions are defined on such spans). -/
theorem C3_missing_operation_attribute (s : Span)
    (hattr : s.attrGet opKey = none) :
    (∀ fc : FilterCriteria, truthyList fc.operation_names = true →
      FilteringSpanProcessor.on_end fc s = []) ∧
    (∀ l : List String,
      FilteringSpanProcessor.on_end ⟨none, none, none, some l, none⟩ s = [[s]]) := by
  constructor
  · intro fc ht
    unfold FilteringSpanProcessor.on_end
    rw [shouldExport_eq_specAllPass]
    simp [specAllPass, hattr, opInList, ht]
  · intro l
    unfold FilteringSpanProcessor.on_end
    rw [shouldExport_eq_specAllPass]
    simp [specAllPass, hattr, opInList, truthyList, truthyNum]

/-- Witness for C3 at a span with no attributes: dropped under an allow-list,
forwarded under a deny-list only. -/
theorem C3_missing_operation_attribute_witness :
    FilteringSpanProcessor.on_end ⟨none, some ["chat"], none, none, none⟩
      ⟨"a", SpanKind.internal, 0, 1, []⟩ = [] ∧
    FilteringSpanProcessor.on_end ⟨none, none, none, some ["chat"], none⟩
      ⟨"a", SpanKind.internal, 0, 1, []⟩ =
      [[⟨"a", SpanKind.internal, 0, 1, []⟩]] :=
  ⟨(C3_missing_operation_attribute ⟨"a", SpanKind.internal, 0, 1, []⟩ rfl).1
      ⟨none, some ["chat"], none, none, none⟩ rfl,
    (C3_missing_operation_attribute ⟨"a", SpanKind.internal, 0, 1, []⟩ rfl).2
      ["chat"]⟩

/-- Claim C4: with `include_names = {"chat"}` and nothing else configured,
a span named `"execute_tool"` is dropped and a span named
`"chat-completion"` is forwarded (case-sensitive substring containment). -/
theorem C4_include_names_substring (k : SpanKind) (st en : Int)
    (attrs : List (String × String)) :
    FilteringSpanProcessor.on_end ⟨some ["chat"], none, none, none, none⟩
      ⟨"execute_tool", k, st, en, attrs⟩ = [] ∧
    FilteringSpanProcessor.on_end ⟨some ["chat"], none, none, none, none⟩
      ⟨"chat-completion", k, st, en, attrs⟩ =
      [[⟨"chat-completion", k, st, en, attrs⟩]] := by
  constructor
  · have h1 : nameMatches ["chat"] "execute_tool" = false := by decide
    simp [FilteringSpanProcessor.on_end, shouldExport, truthyList, h1]
  · have h2 : nameMatches ["chat"] "chat-completion" = true := by decide
    simp [FilteringSpanProcessor.on_end, shouldExport, truthyList, truthyNum, h2]

/-- Claim C5: with `min_duration_ms = 100` as the only criterion, the span is
dropped exactly when `(end_time - start_time) / 1_000_000 < 100`; in
particular a 99 ms span is dropped and an exactly-100 ms span is forwarded. -/
theorem C5_min_duration_strict (s : Span) :
    (FilteringSpanProcessor.on_end ⟨none, none, some 100, none, none⟩ s = [] ↔
      ((s.end_time - s.start_time : Int) : Rat) / 1000000 < 100) ∧
    (s.end_time - s.start_time = 99000000 →
      FilteringSpanProcessor.on_end ⟨none, none, some 100, none, none⟩ s = []) ∧
    (s.end_time - s.start_time = 100000000 →
      FilteringSpanProcessor.on_end ⟨none, none, some 100, none, none⟩ s = [[s]]) := by
  have hkey : FilteringSpanProcessor.on_end ⟨none, none, some 100, none, none⟩ s
      = if durationLt s 100 then [] else [[s]] := by
    unfold FilteringSpanProcessor.on_end
    rw [shouldExport_eq_specAllPass]
    cases h : durationLt s 100 <;>
      simp [specAllPass, truthyList, truthyNum, h]
  refine ⟨?_, ?_, ?_⟩
  · rw [hkey]
    by_cases h : ((s.end_time - s.start_time : Int) : Rat) / 1000000 < 100 <;>
      simp [durationLt, h]
  · intro h
    rw [hkey]
    have hd : durationLt s 100 = true := by
      simp [durationLt, h]
      norm_num
    rw [hd]
    rfl
  · intro h
    rw [hkey]
    have hd : durationLt s 100 = false := by
      simp [durationLt, h]
      norm_num
    rw [hd]
    rfl

/-- Witness for C5: a 99 ms span is dropped, a 100 ms span is forwarded. -/
theorem C5_min_duration_strict_witness :
    FilteringSpanProcessor.on_end ⟨none, none, some 100, none, none⟩
      ⟨"a", SpanKind.internal, 0, 99000000, []⟩ = [] ∧
    FilteringSpanProcessor.on_end ⟨none, none, some 100, none, none⟩
      ⟨"a", SpanKind.internal, 0, 100000000, []⟩ =
      [[⟨"a", SpanKind.internal, 0, 100000000, []⟩]] :=
  ⟨(C5_min_duration_strict ⟨"a", SpanKind.internal, 0, 99000000, []⟩).2.1
      (by decide),
    (C5_min_duration_strict ⟨"a", SpanKind.internal, 0, 100000000, []⟩).2.2
      (by decide)⟩

/-- Claim C6: with `exclude_span_kinds = {CLIENT}` configured, every CLIENT
span is dropped, and for a span of any other kind the predicate has no
effect: the outcome equals the outcome with `exclude_span_kinds` unset. -/
theorem C6_exclude_client_kind (fc : FilterCriteria) (s : Span)
    (hk : fc.exclude_span_kinds = some [SpanKind.client]) :
    (s.kind = SpanKind.client → FilteringSpanProcessor.on_end fc s = []) ∧
    (s.kind ≠ SpanKind.client →
      FilteringSpanProcessor.on_end fc s =
        FilteringSpanProcessor.on_end {fc with exclude_span_kinds := none} s) := by
  constructor
  · intro hkind
    unfold FilteringSpanProcessor.on_end
    rw [shouldExport_eq_specAllPass]
    simp [specAllPass, hk, hkind, truthyList]
  · intro hkind
    unfold FilteringSpanProcessor.on_end
    rw [shouldExport_eq_specAllPass, shouldExport_eq_specAllPass]
    have hc : ([SpanKind.client].contains s.kind) = false := by
      cases hks : s.kind <;> simp_all
    simp [specAllPass, hk, truthyList, hc, hkind]

/-- Witness for C6: a CLIENT span is dropped, a SERVER span behaves as with
no kind filter. -/
theorem C6_exclude_client_kind_witness :
    FilteringSpanProcessor.on_end ⟨none, none, none, none, some [SpanKind.client]⟩
      ⟨"a", SpanKind.client, 0, 1, []⟩ = [] ∧
    FilteringSpanProcessor.on_end ⟨none, none, none, none, some [SpanKind.client]⟩
      ⟨"a", SpanKind.server, 0, 1, []⟩ =
      FilteringSpanProcessor.on_end ⟨none, none, none, none, none⟩
        ⟨"a", SpanKind.server, 0, 1, []⟩ :=
  ⟨(C6_exclude_client_kind _ ⟨"a", SpanKind.client, 0, 1, []⟩ rfl).1 rfl,
    (C6_exclude_client_kind _ ⟨"a", SpanKind.server, 0, 1, []⟩ rfl).2
      (by decide)⟩

/-- Claim C7: `shutdown` only delegates to the wrapped exporter's shutdown;
when the wrapped shutdown is idempotent, so is the adapter's. -/
theorem C7_shutdown_delegates_idempotent {σ : Type} (e : Exporter σ) (st : σ)
    (h : ∀ x, e.shutdownFn (e.shutdownFn x) = e.shutdownFn x) :
    FilteringSpanProcessor.shutdown e st = e.shutdownFn st ∧
    FilteringSpanProcessor.shutdown e (FilteringSpanProcessor.shutdown e st) =
      FilteringSpanProcessor.shutdown e st :=
  ⟨rfl, h st⟩

/-- Witness for C7 at the concrete idempotent exporter. -/
theorem C7_shutdown_delegates_idempotent_witness :
    FilteringSpanProcessor.shutdown constExporter 5 =
      constExporter.shutdownFn 5 ∧
    FilteringSpanProcessor.shutdown constExporter
        (FilteringSpanProcessor.shutdown constExporter 5) =
      FilteringSpanProcessor.shutdown constExporter 5 :=
  C7_shutdown_delegates_idempotent constExporter 5 (fun _ => rfl)

/-- Claim C8: `force_flush(t)` calls the wrapped exporter's force_flush with
exactly `t` and returns that call's result (state effect and success flag)
unchanged. -/
theorem C8_force_flush_delegates {σ : Type} (e : Exporter σ) (st : σ)
    (t : Int) :
    FilteringSpanProcessor.force_flush e st t = e.forceFlushFn st t :=
  rfl

/-- Claim C9: both operation-based predicates read only the fixed key
`"gen_ai.operation.name"`: two spans agreeing on name, kind, timestamps and
on that one attribute lookup get the same filtering decision, whatever their
other attributes are. -/
theorem C9_operation_key_fixed (fc : FilterCriteria) (s1 s2 : Span)
    (hn : s1.name = s2.name) (hk : s1.kind = s2.kind)
    (hst : s1.start_time = s2.start_time) (hen : s1.end_time = s2.end_time)
    (hop : s1.attrGet opKey = s2.attrGet opKey) :
    shouldExport fc s1 = shouldExport fc s2 := by
  rw [shouldExport_eq_specAllPass, shouldExport_eq_specAllPass]
  unfold specAllPass durationLt
  rw [hn, hk, hst, hen, hop]

/-- Witness for C9: spans differing only in an unrelated attribute key get
the same decision under an operation allow-list. -/
theorem C9_operation_key_fixed_witness :
    shouldExport ⟨none, some ["chat"], none, none, none⟩
        ⟨"n", SpanKind.internal, 0, 5, [("other", "x")]⟩ =
      shouldExport ⟨none, some ["chat"], none, none, none⟩
        ⟨"n", SpanKind.internal, 0, 5, [("other", "y")]⟩ :=
  C9_operation_key_fixed ⟨none, some ["chat"], none, none, none⟩
    ⟨"n", SpanKind.internal, 0, 5, [("other", "x")]⟩
    ⟨"n", SpanKind.internal, 0, 5, [("other", "y")]⟩
    rfl rfl rfl rfl (by decide)

/-- Claim C10: a criterion present with a falsy value (empty collection, or
`0` for the duration floor) behaves exactly as if unset; in particular
`operation_names = []` forwards spans instead of dropping all of them. -/
theorem C10_falsy_criteria_skipped (fc : FilterCriteria) (s : Span) :
    FilteringSpanProcessor.on_end {fc with include_names := some []} s =
      FilteringSpanProcessor.on_end {fc with include_names := none} s ∧
    FilteringSpanProcessor.on_end {fc with operation_names := some []} s =
      FilteringSpanProcessor.on_end {fc with operation_names := none} s ∧
    FilteringSpanProcessor.on_end {fc with min_duration_ms := some 0} s =
      FilteringSpanProcessor.on_end {fc with min_duration_ms := none} s ∧
    FilteringSpanProcessor.on_end {fc with exclude_operations := some []} s =
      FilteringSpanProcessor.on_end {fc with exclude_operations := none} s ∧
    FilteringSpanProcessor.on_end {fc with exclude_span_kinds := some []} s =
      FilteringSpanProcessor.on_end {fc with exclude_span_kinds := none} s ∧
    FilteringSpanProcessor.on_end ⟨none, some [], none, none, none⟩ s = [[s]] := by
  refine ⟨?_, ?_, ?_, ?_, ?_, ?_⟩ <;>
    · unfold FilteringSpanProcessor.on_end
      simp only [shouldExport_eq_specAllPass]
      simp [specAllPass, truthyList, truthyNum]
